import Mathlib

/-!
# CLEDR liturgical calendar: a shallow embedding in Lean 4

This file embeds the core of the CLEDR liturgical-calendar library
(`computus.ts`, `calendar.ts`, `fragments.ts`, `types.ts`) and proves or
refutes the specification claims about it.

Conventions of the embedding:

* A JavaScript `Date` constructed as `new Date(year, monthIndex, day)` at
  local midnight is modelled by `JSDate`, a pair of a Gregorian year and a
  1-based day-of-year.  All `Date`s produced by the library are of this
  form.  Comparison of `Date` objects (`<`, `>=`, `getTime()`) compares the
  absolute day number `toRD` (the millisecond scale factors cancel since
  every date is at midnight).
* `new Date(y, m, d)` normalizes out-of-range day values (e.g. Feb 30
  becomes Mar 2); `mkDate` reproduces this for month indices 0..11 and
  day overflow up to one year, which covers every constructor call made by
  the library and by the claims.
* `Date.prototype.setDate` arithmetic (`addDies`) is modelled by day-number
  arithmetic with year carry of at most one year in either direction; the
  library only ever shifts dates by at most 69 days.
* The celebration tables `temporale.ts` and `sanctorale.ts` are not part of
  the sources; the resolution engine is therefore parameterized by the two
  lookup functions, and concrete catalogs are modelled from the spec where
  a claim needs them (definitions marked `Modelled from the spec:`).
* TypeScript early `return` statements inside nested `if` blocks are
  flattened into equivalent nested `if ... then ... else` expressions.
-/

-- =============================================================================
-- Date model (JavaScript Date, day precision)
-- =============================================================================

/-- Gregorian leap-year test, as used by JavaScript dates. -/
def isLeap (y : Nat) : Bool :=
  y % 4 == 0 && (y % 100 != 0 || y % 400 == 0)

/-- 1 in a leap year, 0 otherwise (helper for day-of-year arithmetic). -/
def leapN (y : Nat) : Nat := if isLeap y then 1 else 0

/-- Number of days in a Gregorian year. -/
def daysInYear (y : Nat) : Nat := if isLeap y then 366 else 365

/-- Cumulative days before 0-based month `m` in a non-leap year. -/
def cumDays : Nat → Nat
  | 0 => 0
  | 1 => 31
  | 2 => 59
  | 3 => 90
  | 4 => 120
  | 5 => 151
  | 6 => 181
  | 7 => 212
  | 8 => 243
  | 9 => 273
  | 10 => 304
  | _ => 334

/-- Cumulative days before 0-based month `m` of year `y`. -/
def daysBeforeMonth (y m : Nat) : Nat :=
  cumDays m + (if 2 ≤ m ∧ isLeap y then 1 else 0)

/-- Days from the epoch (Jan 1 of year 1 is day 1) to Jan 1 of year `y`,
exclusive: the rata-die number of Dec 31 of year `y - 1`. -/
def dbyNat (y : Nat) : Nat :=
  365 * (y - 1) + (y - 1) / 4 - (y - 1) / 100 + (y - 1) / 400

/-- A JavaScript `Date` at local midnight: a year and a 1-based day of year. -/
structure JSDate where
  annus : Nat
  doy : Nat
deriving DecidableEq, Repr

/-- Absolute day number of a date (rata die, day precision).  Models
`Date.prototype.getTime()` up to the constant millisecond factor. -/
def toRDNat (d : JSDate) : Nat := dbyNat d.annus + d.doy

/-- Absolute day number as an integer, for differences. -/
def toRD (d : JSDate) : Int := (toRDNat d : Int)

/-- Models `new Date(annus, mensisIdx, dies)` for month indices 0..11 and
`dies ≥ 1`: day overflow past the end of the month (e.g. Feb 30) silently
normalizes into the following months, and past Dec 31 into the next year. -/
def mkDate (annus mensisIdx dies : Nat) : JSDate :=
  let t := daysBeforeMonth annus mensisIdx + dies
  if t ≤ daysInYear annus then ⟨annus, t⟩ else ⟨annus + 1, t - daysInYear annus⟩

/-- Models `result.setDate(result.getDate() + dies)` (see `addDies` in
`computus.ts`): day-number shift with carry into the adjacent year.  Faithful
for shifts of less than a year, which covers every call in the library. -/
def addDies (d : JSDate) (n : Int) : JSDate :=
  let t : Int := (d.doy : Int) + n
  if t < 1 then ⟨d.annus - 1, (t + (daysInYear (d.annus - 1) : Int)).toNat⟩
  else if t ≤ (daysInYear d.annus : Int) then ⟨d.annus, t.toNat⟩
  else ⟨d.annus + 1, (t - (daysInYear d.annus : Int)).toNat⟩

/-- Models `Date.prototype.getFullYear`. -/
def getFullYear (d : JSDate) : Nat := d.annus

/-- Models `Date.prototype.getDay`: 0 = Sunday .. 6 = Saturday.  Day 1 of
year 1 (rata die 1) is a Monday, so the weekday is the day number mod 7. -/
def getDay (d : JSDate) : Nat := toRDNat d % 7

/-- Models `Date.prototype.getMonth` (0-based month) for normalized dates. -/
def getMonth (d : JSDate) : Nat :=
  let L := leapN d.annus
  if d.doy ≤ 31 then 0
  else if d.doy ≤ 59 + L then 1
  else if d.doy ≤ 90 + L then 2
  else if d.doy ≤ 120 + L then 3
  else if d.doy ≤ 151 + L then 4
  else if d.doy ≤ 181 + L then 5
  else if d.doy ≤ 212 + L then 6
  else if d.doy ≤ 243 + L then 7
  else if d.doy ≤ 273 + L then 8
  else if d.doy ≤ 304 + L then 9
  else if d.doy ≤ 334 + L then 10
  else 11

/-- Models `Date.prototype.getDate` (1-based day of month). -/
def getDate (d : JSDate) : Nat := d.doy - daysBeforeMonth d.annus (getMonth d)

/-- Convenience: the date has the given year, 1-based month and day. -/
def isDate (d : JSDate) (y m dd : Nat) : Prop :=
  getFullYear d = y ∧ getMonth d + 1 = m ∧ getDate d = dd

instance (d : JSDate) (y m dd : Nat) : Decidable (isDate d y m dd) := by
  unfold isDate; infer_instance

-- =============================================================================
-- types.ts: enumerations and precedence values
-- =============================================================================

/-- Liturgical seasons (`Tempus` in `types.ts`). -/
inductive Tempus where
  | ORDINARIUM
  | ADVENTUS
  | NATIVITAS
  | QUADRAGESIMA
  | TRIDUUM
  | PASCHALE
deriving DecidableEq, Repr

/-- Short season codes (`TempusCodes`). -/
def TempusCodes : Tempus → String
  | Tempus.ORDINARIUM => "ORD"
  | Tempus.ADVENTUS => "ADV"
  | Tempus.NATIVITAS => "NAT"
  | Tempus.QUADRAGESIMA => "QUA"
  | Tempus.TRIDUUM => "TRI"
  | Tempus.PASCHALE => "PAS"

/-- Lower-case season names (models `Tempus` enum values `.toLowerCase()`). -/
def tempusLower : Tempus → String
  | Tempus.ORDINARIUM => "ordinarium"
  | Tempus.ADVENTUS => "adventus"
  | Tempus.NATIVITAS => "nativitas"
  | Tempus.QUADRAGESIMA => "quadragesima"
  | Tempus.TRIDUUM => "triduum"
  | Tempus.PASCHALE => "paschale"

/-- Lower-case season codes (models `TempusCodes[t].toLowerCase()`). -/
def tempusCodeLower : Tempus → String
  | Tempus.ORDINARIUM => "ord"
  | Tempus.ADVENTUS => "adv"
  | Tempus.NATIVITAS => "nat"
  | Tempus.QUADRAGESIMA => "qua"
  | Tempus.TRIDUUM => "tri"
  | Tempus.PASCHALE => "pas"

/-- Liturgical ranks (`Gradus`). -/
inductive Gradus where
  | SOLLEMNITAS
  | FESTUM
  | MEMORIA
  | MEMORIA_AD_LIBITUM
  | COMMEMORATIO
  | FERIA
deriving DecidableEq, Repr

/-- The 14-level precedence system (`Praecedentia`). -/
inductive Praecedentia where
  | TRIDUUM_1
  | SOLLEMNITAS_DOMINI_IN_CALENDARIO_2
  | DOMINICA_PRIVILEGIATA_2
  | FERIA_IV_CINERUM_2
  | FERIA_HEBDOMADAE_SANCTAE_2
  | DIES_OCTAVAE_PASCHAE_2
  | SOLLEMNITAS_GENERALIS_3
  | SOLLEMNITAS_PROPRIA_PATRONI_4A
  | SOLLEMNITAS_DEDICATIONIS_4B
  | SOLLEMNITAS_TITULI_4C
  | FESTUM_DOMINI_5
  | DOMINICA_NATIVITATIS_6
  | DOMINICA_ORDINARII_6
  | FESTUM_BMV_7
  | FESTUM_SANCTORUM_7
  | FESTUM_PROPRIUM_8
  | FERIA_ADVENTUS_17_24_9
  | DIES_OCTAVAE_NATIVITATIS_9
  | FERIA_QUADRAGESIMAE_9
  | MEMORIA_OBLIGATORIA_10
  | MEMORIA_OBLIGATORIA_PROPRIA_11
  | MEMORIA_AD_LIBITUM_12
  | FERIA_ADVENTUS_13
  | FERIA_NATIVITATIS_13
  | FERIA_PASCHAE_13
  | FERIA_ORDINARII_14
deriving DecidableEq, Repr

/-- Numeric precedence values (`PraecedentiaValue`), lower wins. -/
def PraecedentiaValue : Praecedentia → Nat
  | Praecedentia.TRIDUUM_1 => 100
  | Praecedentia.SOLLEMNITAS_DOMINI_IN_CALENDARIO_2 => 200
  | Praecedentia.DOMINICA_PRIVILEGIATA_2 => 201
  | Praecedentia.FERIA_IV_CINERUM_2 => 202
  | Praecedentia.FERIA_HEBDOMADAE_SANCTAE_2 => 203
  | Praecedentia.DIES_OCTAVAE_PASCHAE_2 => 204
  | Praecedentia.SOLLEMNITAS_GENERALIS_3 => 300
  | Praecedentia.SOLLEMNITAS_PROPRIA_PATRONI_4A => 400
  | Praecedentia.SOLLEMNITAS_DEDICATIONIS_4B => 401
  | Praecedentia.SOLLEMNITAS_TITULI_4C => 402
  | Praecedentia.FESTUM_DOMINI_5 => 500
  | Praecedentia.DOMINICA_NATIVITATIS_6 => 600
  | Praecedentia.DOMINICA_ORDINARII_6 => 601
  | Praecedentia.FESTUM_BMV_7 => 700
  | Praecedentia.FESTUM_SANCTORUM_7 => 701
  | Praecedentia.FESTUM_PROPRIUM_8 => 800
  | Praecedentia.FERIA_ADVENTUS_17_24_9 => 900
  | Praecedentia.DIES_OCTAVAE_NATIVITATIS_9 => 901
  | Praecedentia.FERIA_QUADRAGESIMAE_9 => 902
  | Praecedentia.MEMORIA_OBLIGATORIA_10 => 1000
  | Praecedentia.MEMORIA_OBLIGATORIA_PROPRIA_11 => 1100
  | Praecedentia.MEMORIA_AD_LIBITUM_12 => 1200
  | Praecedentia.FERIA_ADVENTUS_13 => 1300
  | Praecedentia.FERIA_NATIVITATIS_13 => 1301
  | Praecedentia.FERIA_PASCHAE_13 => 1302
  | Praecedentia.FERIA_ORDINARII_14 => 1400

/-- Liturgical colors (`Color`). -/
inductive Color where
  | ALBUS
  | RUBER
  | VIRIDIS
  | VIOLACEUS
  | ROSACEUS
  | NIGER
  | AUREUS
deriving DecidableEq, Repr

/-- Celebration kind (`Genus`). -/
inductive Genus where
  | TEMPORALE
  | SANCTORALE
  | LOCALE
deriving DecidableEq, Repr

/-- Day-of-week short codes (`DiesCodes`); days are the JS weekday 0..6. -/
def DiesCodes : Nat → String
  | 0 => "1DOM"
  | 1 => "2LUN"
  | 2 => "3MAR"
  | 3 => "4MER"
  | 4 => "5IOV"
  | 5 => "6VEN"
  | _ => "7SAB"

/-- Sunday lectionary cycle (`CyclusDominicalis`). -/
inductive CyclusDominicalis where
  | A
  | B
  | C
deriving DecidableEq, Repr

/-- String value of the Sunday cycle. -/
def cyclusDomStr : CyclusDominicalis → String
  | CyclusDominicalis.A => "A"
  | CyclusDominicalis.B => "B"
  | CyclusDominicalis.C => "C"

/-- Weekday lectionary cycle (`CyclusFerialis`). -/
inductive CyclusFerialis where
  | I
  | II
deriving DecidableEq, Repr

/-- String value of the weekday cycle. -/
def cyclusFerStr : CyclusFerialis → String
  | CyclusFerialis.I => "I"
  | CyclusFerialis.II => "II"

/-- Localized names of a celebration (la authoritative, en optional). -/
structure Nomina where
  la : String
  en : String := ""
deriving DecidableEq, Repr

/-- A special liturgical day (`DiesSpecialis` in `types.ts`).  The `match`
function field of the TypeScript interface is omitted: in this embedding the
catalog lookup functions return the matching entry directly. -/
structure DiesSpecialis where
  code : String
  id : String
  shortCode : String
  genus : Genus
  gradus : Gradus
  praecedentia : Praecedentia
  priority : Nat
  colores : List Color
  nomina : Nomina
  month : Option Nat := none
  day : Option Nat := none
deriving DecidableEq, Repr

-- =============================================================================
-- computus.ts: Easter and moveable feasts
-- =============================================================================

/-- The century parameter pair (m, q) selected by `computusPaschalis`
(the chain of `if`/`else if` statements assigning `m` and `q`). -/
def mqParams (annus : Nat) : Nat × Nat :=
  if 1583 ≤ annus ∧ annus ≤ 1699 then (22, 2)
  else if 1700 ≤ annus ∧ annus ≤ 1799 then (23, 3)
  else if 1800 ≤ annus ∧ annus ≤ 1899 then (23, 4)
  else if 1900 ≤ annus ∧ annus ≤ 2099 then (24, 5)
  else if 2100 ≤ annus ∧ annus ≤ 2199 then (24, 6)
  else if 2200 ≤ annus ∧ annus ≤ 2299 then (25, 0)
  else if 2300 ≤ annus ∧ annus ≤ 2399 then (26, 1)
  else if 2400 ≤ annus ∧ annus ≤ 2499 then (25, 1)
  else (24, 5)

/-- `computusPaschalis`: Easter Sunday by the library's computus. -/
def computusPaschalis (annus : Nat) : JSDate :=
  let m := (mqParams annus).1
  let q := (mqParams annus).2
  let a := annus % 19
  let b := annus % 4
  let c := annus % 7
  let d := (19 * a + m) % 30
  let e := (2 * b + 4 * c + 6 * d + q) % 7
  let f := 22 + d + e
  if f > 31 then mkDate annus 3 (f - 31) else mkDate annus 2 f

/-- `pascha`: alias for `computusPaschalis`. -/
def pascha : Nat → JSDate := computusPaschalis

/-- `pentecostes`: Easter + 49 days. -/
def pentecostes (annus : Nat) : JSDate := addDies (pascha annus) 49

/-- `feriaIVCinerum`: Ash Wednesday, Easter - 46 days. -/
def feriaIVCinerum (annus : Nat) : JSDate := addDies (pascha annus) (-46)

/-- `dominicaInPalmis`: Palm Sunday, Easter - 7 days. -/
def dominicaInPalmis (annus : Nat) : JSDate := addDies (pascha annus) (-7)

/-- `feriaVInCenaDomini`: Holy Thursday, Easter - 3 days. -/
def feriaVInCenaDomini (annus : Nat) : JSDate := addDies (pascha annus) (-3)

/-- `feriaVIInPassioneDomini`: Good Friday, Easter - 2 days. -/
def feriaVIInPassioneDomini (annus : Nat) : JSDate := addDies (pascha annus) (-2)

/-- `sabbatumSanctum`: Holy Saturday, Easter - 1 day. -/
def sabbatumSanctum (annus : Nat) : JSDate := addDies (pascha annus) (-1)

/-- `dominicaInOctavaPaschae`: Divine Mercy Sunday, Easter + 7 days. -/
def dominicaInOctavaPaschae (annus : Nat) : JSDate := addDies (pascha annus) 7

/-- `nativitas`: Christmas, December 25. -/
def nativitas (annus : Nat) : JSDate := mkDate annus 11 25

/-- `dominicaIAdventus`: First Sunday of Advent, walking back from Dec 25. -/
def dominicaIAdventus (annus : Nat) : JSDate :=
  let natale := mkDate annus 11 25
  let diesHebd := getDay natale
  let diesHebd := if diesHebd = 0 then 7 else diesHebd
  let daysBack := 21 + diesHebd
  addDies natale (-(daysBack : Int))

/-- `proximaDominica`: next Sunday on or after the date. -/
def proximaDominica (d : JSDate) : JSDate :=
  let dayOfWeek := getDay d
  if dayOfWeek = 0 then d else addDies d ((7 - dayOfWeek : Nat) : Int)

/-- `epiphania`: January 6 (or the Sunday between Jan 2-8 when transferred). -/
def epiphania (annus : Nat) (fixedDate : Bool := true) : JSDate :=
  if fixedDate then mkDate annus 0 6 else proximaDominica (mkDate annus 0 2)

/-- `baptismaDomini`: Sunday after Epiphany (or the Monday when Epiphany is
Jan 7 or 8). -/
def baptismaDomini (annus : Nat) : JSDate :=
  let epiphaniaDate := epiphania annus
  if getDate epiphaniaDate ≥ 7 then addDies epiphaniaDate 1
  else proximaDominica (addDies epiphaniaDate 1)

/-- `diesInter`: whole days from `d1` to `d2`. -/
def diesInter (d1 d2 : JSDate) : Int := toRD d2 - toRD d1

/-- `estDominica`: the date is a Sunday. -/
def estDominica (d : JSDate) : Bool := getDay d == 0

/-- `diesHebdomadae`: day of week 0..6. -/
def diesHebdomadae (d : JSDate) : Nat := getDay d

/-- `idemDies`: same calendar day (year, month and day-of-month equal). -/
def idemDies (d1 d2 : JSDate) : Bool :=
  getFullYear d1 == getFullYear d2 && getMonth d1 == getMonth d2 &&
    getDate d1 == getDate d2

/-- `tempus`: the liturgical season of a date.  The early returns of the
TypeScript function are flattened into nested conditionals; `Date`
comparisons become day-number comparisons. -/
def tempus (date : JSDate) : Tempus :=
  let annus := getFullYear date
  let adventus1 := dominicaIAdventus annus
  let natale := nativitas annus
  if toRD date ≥ toRD adventus1 ∧ toRD date < toRD natale then Tempus.ADVENTUS
  else
    let baptisma := baptismaDomini annus
    if (toRD date ≥ toRD natale ∨ toRD date < toRD baptisma) ∧
        getMonth date = 0 ∧ toRD date < toRD baptisma then Tempus.NATIVITAS
    else if (toRD date ≥ toRD natale ∨ toRD date < toRD baptisma) ∧
        getMonth date = 11 ∧ toRD date ≥ toRD natale then Tempus.NATIVITAS
    else
      let cinerum := feriaIVCinerum annus
      let cenaDomini := feriaVInCenaDomini annus
      if toRD date ≥ toRD cinerum ∧ toRD date < toRD cenaDomini then
        Tempus.QUADRAGESIMA
      else
        let paschaDomini := pascha annus
        if toRD date ≥ toRD cenaDomini ∧ toRD date ≤ toRD paschaDomini then
          Tempus.TRIDUUM
        else
          let pentecostesDate := pentecostes annus
          if toRD date > toRD paschaDomini ∧ toRD date ≤ toRD pentecostesDate
          then Tempus.PASCHALE
          else Tempus.ORDINARIUM

/-- `hebdomadaTemporis`: week number within the current season. -/
def hebdomadaTemporis (date : JSDate) : Int :=
  let annus := getFullYear date
  match tempus date with
  | Tempus.ADVENTUS =>
    let adventus1 := dominicaIAdventus annus
    (diesInter adventus1 date).fdiv 7 + 1
  | Tempus.NATIVITAS =>
    let refYear := if getMonth date ≥ 11 then annus else annus - 1
    let nataleRef := nativitas refYear
    let weeksFromChristmas := (diesInter nataleRef date).fdiv 7
    weeksFromChristmas + 1
  | Tempus.QUADRAGESIMA =>
    let cinerum := feriaIVCinerum annus
    let daysFromAshWed := diesInter cinerum date
    if daysFromAshWed < 4 then 0 else (daysFromAshWed + 3).fdiv 7
  | Tempus.TRIDUUM => 0
  | Tempus.PASCHALE =>
    let paschaDomini := pascha annus
    (diesInter paschaDomini date).fdiv 7 + 1
  | Tempus.ORDINARIUM =>
    let baptisma := baptismaDomini annus
    let cinerum := feriaIVCinerum annus
    let pentecostesDate := pentecostes annus
    let adventus1 := dominicaIAdventus annus
    if toRD date < toRD cinerum then (diesInter baptisma date).fdiv 7 + 1
    else
      let totalWeeksAfterPentecost := (diesInter pentecostesDate adventus1).fdiv 7
      let weeksFromPentecost := (diesInter pentecostesDate date).fdiv 7
      34 - totalWeeksAfterPentecost + weeksFromPentecost + 1

/-- `hebdomadaPsalterii`: psalter week 1..4. -/
def hebdomadaPsalterii (date : JSDate) : Int :=
  let week := hebdomadaTemporis date % 4
  if week = 0 then 4 else week

/-- `estNovusAnnusLiturgicus`: on or after this year's First Sunday of Advent. -/
def estNovusAnnusLiturgicus (date : JSDate) : Bool :=
  decide (toRD date ≥ toRD (dominicaIAdventus (getFullYear date)))

/-- `cyclusDominicalis`: Sunday lectionary cycle A/B/C. -/
def cyclusDominicalis (date : JSDate) : CyclusDominicalis :=
  let annus := if estNovusAnnusLiturgicus date then getFullYear date
               else getFullYear date - 1
  match annus % 3 with
  | 0 => CyclusDominicalis.A
  | 1 => CyclusDominicalis.B
  | _ => CyclusDominicalis.C

/-- `cyclusFerialis`: weekday lectionary cycle I/II. -/
def cyclusFerialis (date : JSDate) : CyclusFerialis :=
  let annus := if estNovusAnnusLiturgicus date then getFullYear date + 1
               else getFullYear date
  if annus % 2 = 1 then CyclusFerialis.I else CyclusFerialis.II

example : isDate (computusPaschalis 2025) 2025 4 20 := by decide
example : isDate (pentecostes 2025) 2025 6 8 := by decide
example : isDate (dominicaIAdventus 2025) 2025 11 30 := by decide
example : tempus (mkDate 2025 3 20) = Tempus.TRIDUUM := by decide
example : tempus (mkDate 2025 2 17) = Tempus.QUADRAGESIMA := by decide

-- =============================================================================
-- calendar.ts: resolution engine helpers
-- =============================================================================

/-- The numeral table of `toRoman`. -/
def romanTable : List (Nat × String) :=
  [(40, "XL"), (10, "X"), (9, "IX"), (5, "V"), (4, "IV"), (1, "I")]

/-- `toRoman`: the while-loop that repeatedly subtracts a numeral value is
expressed as division and remainder, which computes the same string. -/
def toRoman (num : Nat) : String :=
  (romanTable.foldl
    (fun acc p => (acc.1 ++ String.join (List.replicate (acc.2 / p.1) p.2),
                   acc.2 % p.1))
    ("", num)).1

/-- The suffix chosen by `toOrdinal` for a value `v = num % 100`.  In the
source, `suffixes[(v - 20) % 10]` applies for `v ≥ 20` (out-of-range indices
fall through to `suffixes[v]` and finally to `'th'`). -/
def ordinalSuffix (v : Nat) : String :=
  if 20 ≤ v then
    match (v - 20) % 10 with
    | 1 => "st"
    | 2 => "nd"
    | 3 => "rd"
    | _ => "th"
  else
    match v with
    | 1 => "st"
    | 2 => "nd"
    | 3 => "rd"
    | _ => "th"

/-- `toOrdinal` on the week numbers produced by `hebdomadaTemporis`. -/
def toOrdinal (num : Int) : String := toString num ++ ordinalSuffix (num.toNat % 100)

/-- Models `String.prototype.padStart(2, "0")`. -/
def padStart2 (s : String) : String :=
  if s.length ≥ 2 then s else if s.length = 1 then "0" ++ s else "00"

/-- `getSeasonNameLA`. -/
def getSeasonNameLA : Tempus → String
  | Tempus.ADVENTUS => "Adventus"
  | Tempus.NATIVITAS => "Temporis Nativitatis"
  | Tempus.QUADRAGESIMA => "Quadragesimae"
  | Tempus.TRIDUUM => "Tridui Paschalis"
  | Tempus.PASCHALE => "Temporis Paschalis"
  | Tempus.ORDINARIUM => "per Annum"

/-- `getSeasonNameEN`. -/
def getSeasonNameEN : Tempus → String
  | Tempus.ADVENTUS => "of Advent"
  | Tempus.NATIVITAS => "of the Christmas Season"
  | Tempus.QUADRAGESIMA => "of Lent"
  | Tempus.TRIDUUM => "of the Paschal Triduum"
  | Tempus.PASCHALE => "of Easter"
  | Tempus.ORDINARIUM => "in Ordinary Time"

/-- `getDayNameEN`. -/
def getDayNameEN : Nat → String
  | 0 => "Sunday"
  | 1 => "Monday"
  | 2 => "Tuesday"
  | 3 => "Wednesday"
  | 4 => "Thursday"
  | 5 => "Friday"
  | 6 => "Saturday"
  | _ => ""

/-- `getDefaultColor`: default liturgical color for a season and date. -/
def getDefaultColor (currentTempus : Tempus) (date : JSDate) : Color :=
  let annus := getFullYear date
  match currentTempus with
  | Tempus.ADVENTUS =>
    if estDominica date then
      let advent1 := dominicaIAdventus annus
      let weeksFromAdvent := (toRD date - toRD advent1).fdiv 7
      if weeksFromAdvent = 2 then Color.ROSACEUS else Color.VIOLACEUS
    else Color.VIOLACEUS
  | Tempus.NATIVITAS => Color.ALBUS
  | Tempus.QUADRAGESIMA =>
    if estDominica date then
      let cinerum := feriaIVCinerum annus
      let weeksSinceLent := (toRD date - toRD cinerum).fdiv 7
      if weeksSinceLent = 3 then Color.ROSACEUS else Color.VIOLACEUS
    else Color.VIOLACEUS
  | Tempus.TRIDUUM => Color.RUBER
  | Tempus.PASCHALE => Color.ALBUS
  | Tempus.ORDINARIUM => Color.VIRIDIS

/-- `getFerial`: the synthesized seasonal/ferial celebration for a date. -/
def getFerial (date : JSDate) : DiesSpecialis :=
  let currentTempus := tempus date
  let week := hebdomadaTemporis date
  let dayOfWeek := diesHebdomadae date
  let praecedentia :=
    match currentTempus with
    | Tempus.TRIDUUM => Praecedentia.TRIDUUM_1
    | Tempus.QUADRAGESIMA => Praecedentia.FERIA_QUADRAGESIMAE_9
    | Tempus.ADVENTUS =>
      if getMonth date = 11 ∧ getDate date ≥ 17 then
        Praecedentia.FERIA_ADVENTUS_17_24_9
      else Praecedentia.FERIA_ADVENTUS_13
    | Tempus.NATIVITAS =>
      if getMonth date = 11 ∧ getDate date ≥ 26 ∧ getDate date ≤ 31 then
        Praecedentia.DIES_OCTAVAE_NATIVITATIS_9
      else Praecedentia.FERIA_NATIVITATIS_13
    | Tempus.PASCHALE => Praecedentia.FERIA_PASCHAE_13
    | Tempus.ORDINARIUM => Praecedentia.FERIA_ORDINARII_14
  let praecedentia :=
    if estDominica date then
      match currentTempus with
      | Tempus.ADVENTUS => Praecedentia.DOMINICA_PRIVILEGIATA_2
      | Tempus.QUADRAGESIMA => Praecedentia.DOMINICA_PRIVILEGIATA_2
      | Tempus.PASCHALE => Praecedentia.DOMINICA_PRIVILEGIATA_2
      | Tempus.NATIVITAS => Praecedentia.DOMINICA_NATIVITATIS_6
      | _ => Praecedentia.DOMINICA_ORDINARII_6
    else praecedentia
  let tempusCode := TempusCodes currentTempus
  { code := tempusCode ++ padStart2 (toString week) ++ toString dayOfWeek
    id := tempusLower currentTempus ++ "/week-" ++ toString week ++ "/" ++
      toString dayOfWeek
    shortCode := tempusCode ++ toString week
    genus := Genus.TEMPORALE
    gradus := if estDominica date then Gradus.SOLLEMNITAS else Gradus.FERIA
    praecedentia := praecedentia
    priority := PraecedentiaValue praecedentia
    colores := [getDefaultColor currentTempus date]
    nomina :=
      { la :=
          if estDominica date then
            "Dominica " ++ toRoman week.toNat ++ " " ++
              getSeasonNameLA currentTempus
          else
            "Feria " ++ toRoman (dayOfWeek + 1) ++ " Hebdomadae " ++
              toRoman week.toNat ++ " " ++ getSeasonNameLA currentTempus
        en :=
          if estDominica date then
            toOrdinal week ++ " Sunday " ++ getSeasonNameEN currentTempus
          else
            getDayNameEN dayOfWeek ++ " of the " ++ toOrdinal week ++
              " Week " ++ getSeasonNameEN currentTempus } }

/-- `findCelebrations`, parameterized by the two catalog lookups
(`findTemporaleCelebration` and `findSanctoraleCelebration`, whose sources
are not part of the repository snapshot).  The source pushes the optional
temporale entry, then the optional sanctorale entry, and sorts the
(at most two) entries by `PraecedentiaValue` with a stable sort; on a
two-element array that swaps exactly when the sanctorale value is strictly
smaller. -/
def findCelebrations (tem san : JSDate → Option DiesSpecialis)
    (date : JSDate) : List DiesSpecialis :=
  match tem date, san date with
  | none, none => []
  | some t, none => [t]
  | none, some s => [s]
  | some t, some s =>
    if PraecedentiaValue s.praecedentia < PraecedentiaValue t.praecedentia
    then [s, t] else [t, s]

/-- `resolvePrecedence`: the head of the sorted celebration list, if any. -/
def resolvePrecedence (tem san : JSDate → Option DiesSpecialis)
    (date : JSDate) : Option DiesSpecialis :=
  (findCelebrations tem san date).head?

/-- `canCelebrate`: whether a celebration may be celebrated on a date. -/
def canCelebrate (celebration : DiesSpecialis) (date : JSDate) : Bool :=
  let currentTempus := tempus date
  let annus := getFullYear date
  if celebration.gradus = Gradus.MEMORIA_AD_LIBITUM ∧
      (currentTempus = Tempus.QUADRAGESIMA ∨ currentTempus = Tempus.ADVENTUS)
  then false
  else
    let privilegedDays :=
      [feriaIVCinerum annus, dominicaInPalmis annus, feriaVInCenaDomini annus,
       feriaVIInPassioneDomini annus, sabbatumSanctum annus, pascha annus]
    if privilegedDays.any (fun d => idemDies d date) then
      decide (PraecedentiaValue celebration.praecedentia ≤ 204)
    else true

-- =============================================================================
-- calendar.ts: the complete liturgical day
-- =============================================================================

/-- The non-recursive fields of `DiesLiturgicus`.  In `calendar.ts` the
values nested under `commemoratio`/`alternativae` are built by
`buildLiturgicalDay`, which never sets those two fields itself, so one level
of nesting suffices. -/
structure DiesLiturgicusBase where
  date : JSDate
  tempus : Tempus
  hebdomada : Int
  hebdomadaPsalterii : Int
  dies : Nat
  cyclusDominicalis : CyclusDominicalis
  cyclusFerialis : CyclusFerialis
  gradus : Gradus
  praecedentia : Praecedentia
  colores : List Color
  genus : Genus
  id : String
  shortCode : String
  titleCode : String
  nomina : Nomina
deriving DecidableEq, Repr

/-- `DiesLiturgicus`: a resolved liturgical day with optional commemorations
and alternatives (`undefined` in the source is `none` here). -/
structure DiesLiturgicus extends DiesLiturgicusBase where
  commemoratio : Option (List DiesLiturgicusBase) := none
  alternativae : Option (List DiesLiturgicusBase) := none
deriving DecidableEq, Repr

/-- `buildLiturgicalDay`: partial liturgical-day record for a celebration. -/
def buildLiturgicalDay (celebration : DiesSpecialis) (date : JSDate) :
    DiesLiturgicusBase :=
  { date := date
    tempus := tempus date
    hebdomada := hebdomadaTemporis date
    hebdomadaPsalterii := hebdomadaPsalterii date
    dies := diesHebdomadae date
    cyclusDominicalis := cyclusDominicalis date
    cyclusFerialis := cyclusFerialis date
    gradus := celebration.gradus
    praecedentia := celebration.praecedentia
    colores := celebration.colores
    genus := celebration.genus
    id := celebration.id
    shortCode := celebration.shortCode
    titleCode := ""
    nomina := celebration.nomina }

/-- `getDiesLiturgicus`: the main entry point, parameterized by the two
catalog lookups.  `allCelebrations[0] || getFerial(date)` becomes
`headD`: the synthesized ferial is the primary exactly when no celebration
was found. -/
def getDiesLiturgicus (tem san : JSDate → Option DiesSpecialis)
    (date : JSDate) : DiesLiturgicus :=
  let currentTempus := tempus date
  let week := hebdomadaTemporis date
  let dayOfWeek := diesHebdomadae date
  let cyclusDom := cyclusDominicalis date
  let cyclusFer := cyclusFerialis date
  let psalterWeek := hebdomadaPsalterii date
  let allCelebrations := findCelebrations tem san date
  let primaryCelebration := allCelebrations.headD (getFerial date)
  let commemorations := (allCelebrations.drop 1).filter
    (fun c => canCelebrate c date &&
      decide (PraecedentiaValue c.praecedentia < 1200))
  let alternatives := allCelebrations.filter
    (fun c => decide (c.gradus = Gradus.MEMORIA_AD_LIBITUM) &&
      canCelebrate c date)
  let tempusCode := TempusCodes currentTempus
  let weekCode := "ST" ++ padStart2 (toString week)
  let dayCode := DiesCodes dayOfWeek
  let yearCode := "Y-" ++ cyclusDomStr cyclusDom ++ cyclusFerStr cyclusFer
  let titleCode := "TIT;" ++ tempusCode ++ ";" ++ weekCode ++ ";" ++ dayCode ++
    ";" ++ yearCode
  let shortCode :=
    if primaryCelebration.shortCode ≠ "" then primaryCelebration.shortCode
    else tempusCodeLower currentTempus ++ "/" ++ padStart2 (toString week) ++
      "/" ++ toString dayOfWeek
  { date := date
    tempus := currentTempus
    hebdomada := week
    hebdomadaPsalterii := psalterWeek
    dies := dayOfWeek
    cyclusDominicalis := cyclusDom
    cyclusFerialis := cyclusFer
    gradus := primaryCelebration.gradus
    praecedentia := primaryCelebration.praecedentia
    colores := primaryCelebration.colores
    genus := primaryCelebration.genus
    id := primaryCelebration.id
    shortCode := shortCode
    titleCode := titleCode
    nomina := primaryCelebration.nomina
    commemoratio :=
      if commemorations.length > 0 then
        some (commemorations.map (fun c => buildLiturgicalDay c date))
      else none
    alternativae :=
      if alternatives.length > 0 then
        some (alternatives.map (fun c => buildLiturgicalDay c date))
      else none }

-- =============================================================================
-- fragments.ts: precedence helpers and fragment names
-- =============================================================================

/-- `GradusRank`: numeric ranking for `Gradus` (lower = higher); the
remaining case of the match is the commemoration rank. -/
def GradusRank : Gradus → Nat
  | Gradus.SOLLEMNITAS => 1
  | Gradus.FESTUM => 2
  | Gradus.MEMORIA => 3
  | Gradus.MEMORIA_AD_LIBITUM => 4
  | Gradus.FERIA => 6
  | _ => 5

/-- `gradusAtLeast`: at least as high as the threshold in liturgical rank. -/
def gradusAtLeast (gradus threshold : Gradus) : Bool :=
  decide (GradusRank gradus ≤ GradusRank threshold)

/-- `getSeasonalPraecedentia`: precedence of the seasonal (unnamed) day. -/
def getSeasonalPraecedentia (date : JSDate) : Praecedentia :=
  let currentTempus := tempus date
  let sunday := estDominica date
  let annus := getFullYear date
  let easter := pascha annus
  let daysFromEaster := toRD date - toRD easter
  if 0 ≤ daysFromEaster ∧ daysFromEaster ≤ 7 then
    Praecedentia.DIES_OCTAVAE_PASCHAE_2
  else if sunday then
    match currentTempus with
    | Tempus.ADVENTUS => Praecedentia.DOMINICA_PRIVILEGIATA_2
    | Tempus.QUADRAGESIMA => Praecedentia.DOMINICA_PRIVILEGIATA_2
    | Tempus.PASCHALE => Praecedentia.DOMINICA_PRIVILEGIATA_2
    | Tempus.NATIVITAS => Praecedentia.DOMINICA_NATIVITATIS_6
    | _ => Praecedentia.DOMINICA_ORDINARII_6
  else
    match currentTempus with
    | Tempus.TRIDUUM => Praecedentia.TRIDUUM_1
    | Tempus.QUADRAGESIMA =>
      let ashWed := addDies easter (-46)
      if toRD date = toRD ashWed then Praecedentia.FERIA_IV_CINERUM_2
      else if -6 ≤ daysFromEaster ∧ daysFromEaster ≤ -4 then
        Praecedentia.FERIA_HEBDOMADAE_SANCTAE_2
      else Praecedentia.FERIA_QUADRAGESIMAE_9
    | Tempus.ADVENTUS =>
      if getMonth date = 11 ∧ getDate date ≥ 17 ∧ getDate date ≤ 24 then
        Praecedentia.FERIA_ADVENTUS_17_24_9
      else Praecedentia.FERIA_ADVENTUS_13
    | Tempus.NATIVITAS =>
      if getMonth date = 11 ∧ getDate date ≥ 26 ∧ getDate date ≤ 31 then
        Praecedentia.DIES_OCTAVAE_NATIVITATIS_9
      else if getMonth date = 0 ∧ getDate date = 1 then
        Praecedentia.DIES_OCTAVAE_NATIVITATIS_9
      else Praecedentia.FERIA_NATIVITATIS_13
    | Tempus.PASCHALE => Praecedentia.FERIA_PASCHAE_13
    | _ => Praecedentia.FERIA_ORDINARII_14

/-- `getTransferDate`: the transfer date of a sanctorale celebration falling
in a protected window, or `none`.  The two early-return branches of the
source (Annunciation, St. Joseph) are flattened. -/
def getTransferDate (sanctorale : DiesSpecialis) (date : JSDate) :
    Option JSDate :=
  let annus := getFullYear date
  let easter := pascha annus
  let daysFromEaster := toRD date - toRD easter
  if sanctorale.id = "annunciation" ∧ sanctorale.month = some 3 ∧
      sanctorale.day = some 25 ∧ -7 ≤ daysFromEaster ∧ daysFromEaster ≤ 7 then
    some (addDies easter 8)
  else if sanctorale.id = "joseph_spouse_of_mary" ∧ sanctorale.month = some 3 ∧
      sanctorale.day = some 19 ∧ -7 ≤ daysFromEaster ∧ daysFromEaster ≤ 0 then
    some (addDies easter (-8))
  else none

/-- `hasPrecedence`: strictly higher precedence (lower value). -/
def hasPrecedence (a b : Praecedentia) : Bool :=
  decide (PraecedentiaValue a < PraecedentiaValue b)

/-- `FragmentNames`: the output of `getFragmentNames`.  The liturgical hour
is its string code (the TypeScript `Hora` enum is a string enum, e.g.
`LAUDES = "LAU"`). -/
structure FragmentNames where
  primary : String
  fallback : Option String := none
  common : Option String := none
  seasonal : Option String := none
  bmdPath : String
  eprexCode : String
  lectionarySunday : CyclusDominicalis
  lectionaryWeekday : CyclusFerialis
deriving DecidableEq, Repr

/-- `getSeasonPath` (the `TempusCodes[t] || "ORD"` fallback is dead because
`TempusCodes` is total). -/
def getSeasonPath (t : Tempus) : String := TempusCodes t

/-- `getDayPath` (total for weekday numbers 0..6). -/
def getDayPath (day : Nat) : String := DiesCodes day

/-- Character-list matching used by `strContains`. -/
def leadsWith : List Char → List Char → Bool
  | [], _ => true
  | _ :: _, [] => false
  | a :: as, b :: bs => a == b && leadsWith as bs

/-- Helper for `strContains`: does `pat` occur in the character list. -/
def containsAux (pat : List Char) : List Char → Bool
  | [] => leadsWith pat []
  | c :: rest => leadsWith pat (c :: rest) || containsAux pat rest

/-- Models `String.prototype.includes`. -/
def strContains (s pat : String) : Bool := containsAux pat.toList s.toList

/-- `getCommonType`: classify a sanctorale id into a commune category by a
fixed-priority keyword test. -/
def getCommonType (dies : DiesSpecialis) : String :=
  let id := dies.id.toLower
  if strContains id "mary" || strContains id "bmv" || strContains id "mariae" ||
      strContains id "assumption" || strContains id "immaculate" then "bmv"
  else if strContains id "apostle" || strContains id "apostol" then "apostoli"
  else if strContains id "martyr" then "martyres"
  else if strContains id "bishop" || strContains id "pope" ||
      strContains id "papa" || strContains id "episcop" ||
      strContains id "doctor" then "pastores"
  else if strContains id "virgin" then "virgines"
  else if strContains id "religious" || strContains id "abbot" ||
      strContains id "abbat" then "religiosi"
  else "sancti"

/-- Two-digit month/day used in sanctorale fallback paths; the source applies
`padStart(2, "0")` to `month?.toString()` (an absent month renders as the
string "undefined" in JS, which cannot occur for catalog entries). -/
def optPad2 : Option Nat → String
  | some n => padStart2 (toString n)
  | none => "undefined"

/-- `getFragmentNames`: fragment identifiers for a date and hour,
parameterized by the catalog lookups (`findTemporale` and
`findSanctoraleCelebration` in the source). -/
def getFragmentNames (tem san : JSDate → Option DiesSpecialis)
    (date : JSDate) (hora : String) : FragmentNames :=
  let currentTempus := tempus date
  let week := hebdomadaTemporis date
  let dayOfWeek := diesHebdomadae date
  let sunday := estDominica date
  let seasonPath := getSeasonPath currentTempus
  let weekStr := padStart2 (toString week)
  let dayPath := getDayPath dayOfWeek
  let temporale := tem date
  let sanctorale := san date
  let seasonalPraecedentia := getSeasonalPraecedentia date
  let seasonalPath := seasonPath ++ "/" ++ weekStr ++ "/" ++ dayPath ++ "/" ++
    hora
  let sanctoraleTransferred :=
    match sanctorale with
    | some s => (getTransferDate s date).isSome
    | none => false
  let cyclusDom := cyclusDominicalis date
  let cyclusFer := cyclusFerialis date
  let cyclus := if sunday then cyclusDomStr cyclusDom else cyclusFerStr cyclusFer
  let bmdPath := seasonPath ++ "/" ++ weekStr ++ "/" ++ dayPath ++ "/" ++
    cyclus ++ "/" ++ hora
  let tempusCode := TempusCodes currentTempus
  let daysCode := DiesCodes dayOfWeek
  let eprexCode := tempusCode ++ weekStr ++ daysCode ++ "-" ++ hora
  match temporale with
  | some t =>
    let code := if t.shortCode ≠ "" then t.shortCode else t.code
    { primary := code ++ "/" ++ hora
      fallback := some seasonalPath
      seasonal := some ("commune/" ++ seasonPath ++ "/" ++ hora)
      bmdPath := bmdPath
      eprexCode := eprexCode
      lectionarySunday := cyclusDom
      lectionaryWeekday := cyclusFer }
  | none =>
    match sanctorale, sanctoraleTransferred with
    | some s, false =>
      if hasPrecedence s.praecedentia seasonalPraecedentia then
        let code := if s.shortCode ≠ "" then s.shortCode else s.code
        { primary := code ++ "/" ++ hora
          fallback := some ("sancti/" ++ optPad2 s.month ++ "/" ++
            optPad2 s.day ++ "/" ++ hora)
          common := some ("commune/" ++ getCommonType s ++ "/" ++ hora)
          seasonal := some seasonalPath
          bmdPath := bmdPath
          eprexCode := eprexCode
          lectionarySunday := cyclusDom
          lectionaryWeekday := cyclusFer }
      else
        { primary := seasonalPath
          seasonal :=
            if sunday then
              some (seasonPath ++ "/" ++ weekStr ++ "/dom/" ++ hora)
            else none
          common :=
            if gradusAtLeast s.gradus Gradus.MEMORIA then
              some ("commune/" ++ getCommonType s ++ "/" ++ hora)
            else some ("commune/feria/" ++ hora)
          fallback :=
            if gradusAtLeast s.gradus Gradus.MEMORIA then
              some ((if s.shortCode ≠ "" then s.shortCode else s.code) ++
                "/" ++ hora)
            else none
          bmdPath := bmdPath
          eprexCode := eprexCode
          lectionarySunday := cyclusDom
          lectionaryWeekday := cyclusFer }
    | _, _ =>
      { primary := seasonalPath
        seasonal :=
          if sunday then some (seasonPath ++ "/" ++ weekStr ++ "/dom/" ++ hora)
          else none
        common := some ("commune/feria/" ++ hora)
        bmdPath := bmdPath
        eprexCode := eprexCode
        lectionarySunday := cyclusDom
        lectionaryWeekday := cyclusFer }

-- =============================================================================
-- Modelled celebration catalogs
-- =============================================================================

-- Temporale entries used by the modelled catalog, one per Easter offset.

/-- Helper to build a modelled temporale entry. -/
def temporaleEntry (code idStr : String) (p : Praecedentia) (cs : List Color)
    (la : String) : DiesSpecialis :=
  { code := code
    id := idStr
    shortCode := code
    genus := Genus.TEMPORALE
    gradus := Gradus.SOLLEMNITAS
    praecedentia := p
    priority := PraecedentiaValue p
    colores := cs
    nomina := { la := la } }

/-- Ash Wednesday temporale entry (tier 2). -/
def ashWednesdayT : DiesSpecialis :=
  temporaleEntry "QUA0" "ash_wednesday" Praecedentia.FERIA_IV_CINERUM_2
    [Color.VIOLACEUS] "Feria IV Cinerum"

/-- Palm Sunday temporale entry (tier 2). -/
def palmSundayT : DiesSpecialis :=
  temporaleEntry "QUA6" "palm_sunday" Praecedentia.DOMINICA_PRIVILEGIATA_2
    [Color.RUBER] "Dominica in Palmis"

/-- Holy Week Monday temporale entry (tier 2). -/
def holyMondayT : DiesSpecialis :=
  temporaleEntry "QUA6F2" "holy_week_monday"
    Praecedentia.FERIA_HEBDOMADAE_SANCTAE_2 [Color.VIOLACEUS]
    "Feria II Hebdomadae Sanctae"

/-- Holy Week Tuesday temporale entry (tier 2). -/
def holyTuesdayT : DiesSpecialis :=
  temporaleEntry "QUA6F3" "holy_week_tuesday"
    Praecedentia.FERIA_HEBDOMADAE_SANCTAE_2 [Color.VIOLACEUS]
    "Feria III Hebdomadae Sanctae"

/-- Holy Week Wednesday temporale entry (tier 2). -/
def holyWednesdayT : DiesSpecialis :=
  temporaleEntry "QUA6F4" "holy_week_wednesday"
    Praecedentia.FERIA_HEBDOMADAE_SANCTAE_2 [Color.VIOLACEUS]
    "Feria IV Hebdomadae Sanctae"

/-- Holy Thursday temporale entry (tier 1). -/
def holyThursdayT : DiesSpecialis :=
  temporaleEntry "TRI1" "holy_thursday" Praecedentia.TRIDUUM_1
    [Color.ALBUS] "Feria V in Cena Domini"

/-- Good Friday temporale entry (tier 1). -/
def goodFridayT : DiesSpecialis :=
  temporaleEntry "TRI2" "good_friday" Praecedentia.TRIDUUM_1
    [Color.RUBER] "Feria VI in Passione Domini"

/-- Holy Saturday temporale entry (tier 1). -/
def holySaturdayT : DiesSpecialis :=
  temporaleEntry "TRI3" "holy_saturday" Praecedentia.TRIDUUM_1
    [Color.ALBUS] "Sabbatum Sanctum"

/-- Easter Sunday temporale entry (tier 1). -/
def easterT : DiesSpecialis :=
  temporaleEntry "PAS0" "easter_sunday" Praecedentia.TRIDUUM_1
    [Color.ALBUS] "Dominica Paschae in Resurrectione Domini"

/-- Easter Octave weekday temporale entry (tier 2). -/
def octaveT (off : Int) : DiesSpecialis :=
  temporaleEntry ("PAS1F" ++ toString (off + 1)) "easter_octave_day"
    Praecedentia.DIES_OCTAVAE_PASCHAE_2 [Color.ALBUS]
    "Feria infra Octavam Paschae"

/-- Divine Mercy Sunday temporale entry (tier 2). -/
def divineMercyT : DiesSpecialis :=
  temporaleEntry "PAS2" "divine_mercy_sunday"
    Praecedentia.DIES_OCTAVAE_PASCHAE_2 [Color.ALBUS]
    "Dominica in Octava Paschae"

/-- Pentecost temporale entry (tier 2). -/
def pentecostT : DiesSpecialis :=
  temporaleEntry "PEN0" "pentecost_sunday"
    Praecedentia.SOLLEMNITAS_DOMINI_IN_CALENDARIO_2 [Color.RUBER]
    "Dominica Pentecostes"

/-- Modelled from the spec: `temporale.ts` is not under `src/`.  The entries
follow the offset table of spec section 4.1 (Ash Wednesday -46, Palm Sunday
-7, Holy Thursday -3, Good Friday -2, Holy Saturday -1, Divine Mercy +7,
Pentecost +49), the Holy Week and Easter Octave weekdays between them, and
the precedence tiers of sections 4.3/8 (Triduum and Easter at tier 1 --
`resolve(easter).primary.tier == Triduum_1` -- Ash Wednesday, Palm Sunday,
Holy Week and octave days at tier 2). -/
def findTemporaleCelebrationM (date : JSDate) : Option DiesSpecialis :=
  let annus := getFullYear date
  let off := toRD date - toRD (pascha annus)
  if off = -46 then some ashWednesdayT
  else if off = -7 then some palmSundayT
  else if off = -6 then some holyMondayT
  else if off = -5 then some holyTuesdayT
  else if off = -4 then some holyWednesdayT
  else if off = -3 then some holyThursdayT
  else if off = -2 then some goodFridayT
  else if off = -1 then some holySaturdayT
  else if off = 0 then some easterT
  else if 1 ≤ off ∧ off ≤ 6 then some (octaveT off)
  else if off = 7 then some divineMercyT
  else if off = 49 then some pentecostT
  else none

/-- Helper to build a modelled sanctorale entry. -/
def sanctoraleEntry (code idStr : String) (g : Gradus) (p : Praecedentia)
    (m dd : Nat) (la : String) : DiesSpecialis :=
  { code := code
    id := idStr
    shortCode := code
    genus := Genus.SANCTORALE
    gradus := g
    praecedentia := p
    priority := PraecedentiaValue p
    colores := [Color.ALBUS]
    nomina := { la := la }
    month := some m
    day := some dd }

/-- St. Patrick, March 17 (optional memorial). -/
def patriciusM : DiesSpecialis :=
  sanctoraleEntry "0317" "patrick" Gradus.MEMORIA_AD_LIBITUM
    Praecedentia.MEMORIA_AD_LIBITUM_12 3 17 "S. Patricii"

/-- St. Joseph, March 19 (solemnity). -/
def iosephM : DiesSpecialis :=
  sanctoraleEntry "0319" "joseph_spouse_of_mary" Gradus.SOLLEMNITAS
    Praecedentia.SOLLEMNITAS_GENERALIS_3 3 19 "S. Ioseph Sponsi BMV"

/-- Annunciation, March 25 (solemnity). -/
def annuntiatioM : DiesSpecialis :=
  sanctoraleEntry "0325" "annunciation" Gradus.SOLLEMNITAS
    Praecedentia.SOLLEMNITAS_GENERALIS_3 3 25 "In Annuntiatione Domini"

/-- St. Mark the Evangelist, April 25 (feast). -/
def marcusM : DiesSpecialis :=
  sanctoraleEntry "0425" "mark_evangelist" Gradus.FESTUM
    Praecedentia.FESTUM_SANCTORUM_7 4 25 "S. Marci Evangelistae"

/-- Immaculate Conception, December 8 (solemnity). -/
def immaculataM : DiesSpecialis :=
  sanctoraleEntry "1208" "immaculate_conception" Gradus.SOLLEMNITAS
    Praecedentia.SOLLEMNITAS_GENERALIS_3 12 8 "In Conceptione Immaculata BMV"

/-- Modelled from the spec: `sanctorale.ts` is not under `src/`.  Fixed
feasts are keyed by month/day (spec sections 3 and 4.3 step 2); the entries
are the ones named by the spec scenarios (St. Joseph Mar 19, Annunciation
Mar 25, Immaculate Conception Dec 8), one optional memorial falling in Lent
as required by the Advent/Lent demotion rule (St. Patrick Mar 17, named in
the repository tests), and one fixed feast that can fall inside the Holy
Week / Easter Octave window (St. Mark Apr 25). -/
def findSanctoraleCelebrationM (date : JSDate) : Option DiesSpecialis :=
  let m := getMonth date + 1
  let dd := getDate date
  if m = 3 ∧ dd = 17 then some patriciusM
  else if m = 3 ∧ dd = 19 then some iosephM
  else if m = 3 ∧ dd = 25 then some annuntiatioM
  else if m = 4 ∧ dd = 25 then some marcusM
  else if m = 12 ∧ dd = 8 then some immaculataM
  else none

/-- The resolution engine instantiated with the modelled catalogs. -/
def getDiesLiturgicusM : JSDate → DiesLiturgicus :=
  getDiesLiturgicus findTemporaleCelebrationM findSanctoraleCelebrationM

/-- `findCelebrations` instantiated with the modelled catalogs. -/
def findCelebrationsM : JSDate → List DiesSpecialis :=
  findCelebrations findTemporaleCelebrationM findSanctoraleCelebrationM

/-- `getFragmentNames` instantiated with the modelled catalogs. -/
def getFragmentNamesM : JSDate → String → FragmentNames :=
  getFragmentNames findTemporaleCelebrationM findSanctoraleCelebrationM

example : (getFragmentNamesM (mkDate 2035 2 19) "LAU").primary = "QUA6F2/LAU" := by decide
example : (getFragmentNamesM (mkDate 2025 2 25) "LAU").primary = "0325/LAU" := by decide
example : (getFragmentNamesM (mkDate 2016 2 25) "LAU").primary = "TRI2/LAU" := by decide
example : (getFragmentNamesM (mkDate 2024 2 19) "LAU").primary = "0319/LAU" := by decide

-- =============================================================================
-- Shape lemmas for the date arithmetic
-- =============================================================================

theorem daysInYear_ge (y : Nat) : 365 ≤ daysInYear y := by
  unfold daysInYear; split <;> omega

theorem mq_bounds (y : Nat) :
    22 ≤ (mqParams y).1 ∧ (mqParams y).1 ≤ 26 ∧ (mqParams y).2 ≤ 6 := by
  unfold mqParams
  repeat' split
  all_goals decide

theorem pascha_shape (y : Nat) :
    (pascha y).annus = y ∧ 81 ≤ (pascha y).doy ∧ (pascha y).doy ≤ 117 := by
  obtain ⟨h1, h2, h3⟩ := mq_bounds y
  have hd : (19 * (y % 19) + (mqParams y).1) % 30 ≤ 29 := by omega
  have he : (2 * (y % 4) + 4 * (y % 7) +
      6 * ((19 * (y % 19) + (mqParams y).1) % 30) + (mqParams y).2) % 7 ≤ 6 := by
    omega
  simp only [pascha, computusPaschalis, mkDate, daysBeforeMonth, cumDays,
    daysInYear, leapN]
  repeat' split
  all_goals dsimp only
  all_goals omega

theorem natale_shape (y : Nat) : nativitas y = ⟨y, 359 + leapN y⟩ := by
  cases hL : isLeap y <;>
    simp [nativitas, mkDate, daysBeforeMonth, cumDays, daysInYear, leapN, hL]

theorem getDay_lt (d : JSDate) : getDay d < 7 := by
  unfold getDay; omega

theorem adventus_shape (y : Nat) :
    ∃ a : Nat, dominicaIAdventus y = ⟨y, a⟩ ∧ 331 + leapN y ≤ a ∧
      a ≤ 337 + leapN y ∧ (dbyNat y + a) % 7 = 0 := by
  have hnat := natale_shape y
  have hL : leapN y ≤ 1 := by unfold leapN; split <;> omega
  have hDIY : 365 ≤ daysInYear y := daysInYear_ge y
  have hDIY2 : daysInYear y = 365 + leapN y := by
    unfold daysInYear leapN; split <;> omega
  unfold dominicaIAdventus
  rw [show mkDate y 11 25 = ⟨y, 359 + leapN y⟩ from hnat]
  dsimp only
  have hgd : getDay ⟨y, 359 + leapN y⟩ = (dbyNat y + (359 + leapN y)) % 7 := rfl
  rw [hgd]
  set w := (dbyNat y + (359 + leapN y)) % 7 with hw
  have hw7 : w < 7 := by omega
  by_cases h0 : w = 0
  · rw [if_pos h0]
    unfold addDies
    dsimp only
    rw [if_neg (by omega), if_pos (by omega)]
    refine ⟨(((359 + leapN y : Nat) : Int) + -(21 + 7 : Int)).toNat, rfl, ?_, ?_, ?_⟩ <;>
      omega
  · rw [if_neg h0]
    unfold addDies
    dsimp only
    rw [if_neg (by omega), if_pos (by omega)]
    refine ⟨(((359 + leapN y : Nat) : Int) + -(21 + w : Int)).toNat, rfl, ?_, ?_, ?_⟩ <;>
      omega

theorem baptisma_shape (y : Nat) :
    ∃ b : Nat, baptismaDomini y = ⟨y, b⟩ ∧ 7 ≤ b ∧ b ≤ 13 := by
  have hDIY : 365 ≤ daysInYear y := daysInYear_ge y
  have hEp : epiphania y = ⟨y, 6⟩ := by
    cases hL : isLeap y <;>
      simp [epiphania, mkDate, daysBeforeMonth, cumDays, daysInYear, leapN, hL]
  unfold baptismaDomini
  rw [hEp]
  dsimp only
  have hgdte : getDate ⟨y, 6⟩ = 6 := by
    cases hL : isLeap y <;>
      simp [getDate, getMonth, daysBeforeMonth, cumDays, leapN, hL]
  rw [hgdte, if_neg (by omega)]
  have hAdd : addDies ⟨y, 6⟩ 1 = ⟨y, 7⟩ := by
    unfold addDies
    dsimp only
    rw [if_neg (by omega), if_pos (by omega)]
    congr 1
  rw [hAdd]
  unfold proximaDominica
  dsimp only
  have hgd7 : getDay ⟨y, 7⟩ < 7 := getDay_lt _
  by_cases h0 : getDay ⟨y, 7⟩ = 0
  · rw [if_pos h0]
    exact ⟨7, rfl, by omega, by omega⟩
  · rw [if_neg h0]
    unfold addDies
    dsimp only
    rw [if_neg (by omega), if_pos (by omega)]
    exact ⟨_, rfl, by omega, by omega⟩

theorem addDies_pascha (y : Nat) (o : Int) (h1 : -46 ≤ o) (h2 : o ≤ 49) :
    ∃ n : Nat, addDies (pascha y) o = ⟨y, n⟩ ∧
      (n : Int) = ((pascha y).doy : Int) + o ∧ 35 ≤ n ∧ n ≤ 166 := by
  obtain ⟨hy, hlo, hhi⟩ := pascha_shape y
  have hDIY : 365 ≤ daysInYear (pascha y).annus := daysInYear_ge _
  unfold addDies
  dsimp only
  rw [if_neg (by omega), if_pos (by omega), hy]
  exact ⟨_, rfl, by omega, by omega⟩

theorem tempus_easter_offset (y : Nat) (o : Int) (h1 : -46 ≤ o) (h2 : o ≤ 49) :
    tempus (addDies (pascha y) o) =
      if o < -3 then Tempus.QUADRAGESIMA
      else if o ≤ 0 then Tempus.TRIDUUM
      else Tempus.PASCHALE := by
  obtain ⟨n, hEq, hn, hn1, hn2⟩ := addDies_pascha y o h1 h2
  obtain ⟨n46, hEq46, hn46, hm1, hm2⟩ := addDies_pascha y (-46) (by omega) (by omega)
  obtain ⟨n3, hEq3, hn3, hq1, hq2⟩ := addDies_pascha y (-3) (by omega) (by omega)
  obtain ⟨n49, hEq49, hn49, hr1, hr2⟩ := addDies_pascha y 49 (by omega) (by omega)
  obtain ⟨a, hA, hA1, hA2, hA3⟩ := adventus_shape y
  obtain ⟨b, hB, hB1, hB2⟩ := baptisma_shape y
  have hNat := natale_shape y
  obtain ⟨hPy, hPlo, hPhi⟩ := pascha_shape y
  have hLp : leapN y ≤ 1 := by unfold leapN; split <;> omega
  have hCin : feriaIVCinerum y = ⟨y, n46⟩ := hEq46
  have hCena : feriaVInCenaDomini y = ⟨y, n3⟩ := hEq3
  have hPent : pentecostes y = ⟨y, n49⟩ := hEq49
  have hrd : ∀ A D : Nat, toRD ⟨A, D⟩ = ((dbyNat A + D : Nat) : Int) :=
    fun A D => rfl
  rw [hEq]
  unfold tempus
  dsimp only [getFullYear]
  rw [hA, hNat, hB, hCin, hCena, hPent]
  simp only [hrd, hPy]
  split
  · rename_i hc
    omega
  · split
    · rename_i hc
      obtain ⟨hc1, hc2, hc3⟩ := hc
      omega
    · split
      · rename_i hc
        obtain ⟨hc1, hc2, hc3⟩ := hc
        omega
      · split
        · rename_i hc
          rw [if_pos (show o < -3 by omega)]
        · split
          · rename_i hc
            rw [if_neg (show ¬(o < -3) by omega),
              if_pos (show o ≤ 0 by omega)]
          · split
            · rename_i hc
              rw [if_neg (show ¬(o < -3) by omega),
                if_neg (show ¬(o ≤ 0) by omega)]
            · rename_i hc1 hc2 hc3
              omega

theorem addDies_pascha_zero (y : Nat) : addDies (pascha y) 0 = pascha y := by
  obtain ⟨hy, hlo, hhi⟩ := pascha_shape y
  have hDIY : 365 ≤ daysInYear (pascha y).annus := daysInYear_ge _
  unfold addDies
  dsimp only
  rw [if_neg (by omega), if_pos (by omega)]
  have h : (((pascha y).doy : Int) + 0).toNat = (pascha y).doy := by omega
  rw [h]

-- =============================================================================
-- Claims
-- =============================================================================

/-- The range claimed by C1 for the computed Easter date: between March 22
and April 25 inclusive (months are 0-based as in JavaScript). -/
def inEasterRange (d : JSDate) : Prop :=
  (getMonth d = 2 ∧ 22 ≤ getDate d) ∨ (getMonth d = 3 ∧ getDate d ≤ 25)

instance (d : JSDate) : Decidable (inEasterRange d) := by
  unfold inEasterRange; infer_instance

/-- C1: the claim states that for 1583 ≤ Y ≤ 2499 the computed Easter lies
in [Mar 22, Apr 25] and is a Sunday.  The code omits the two correction
cases of the Gauss computus, so in 1981 (and in 1609, 2076, 2133, 2201,
2296, 2448) it returns April 26 -- outside the claimed range, and not the
real Easter Sunday (April 19, 1981) the function is documented to compute.
This theorem evaluates the code at the failing input: the result is
1981-04-26, a Sunday, but not in [Mar 22, Apr 25]. -/
theorem claim_C1_code_bug :
    isDate (computusPaschalis 1981) 1981 4 26 ∧
    ¬ inEasterRange (computusPaschalis 1981) ∧
    getDay (computusPaschalis 1981) = 0 := by
  decide

/-- C2: the checkpoint values.  `computusPaschalis` (easter),
`feriaIVCinerum` (ashWednesday), `pentecostes` (pentecost) and
`dominicaIAdventus` (firstAdvent) produce exactly the spec's values at 2025,
2024 and the century boundaries 1900, 2000, 2100. -/
theorem claim_C2_checkpoints :
    isDate (computusPaschalis 2025) 2025 4 20 ∧
    isDate (computusPaschalis 2024) 2024 3 31 ∧
    isDate (feriaIVCinerum 2025) 2025 3 5 ∧
    isDate (pentecostes 2025) 2025 6 8 ∧
    isDate (dominicaIAdventus 2025) 2025 11 30 ∧
    isDate (computusPaschalis 1900) 1900 4 15 ∧
    isDate (computusPaschalis 2000) 2000 4 23 ∧
    isDate (computusPaschalis 2100) 2100 3 28 := by
  decide

/-- C3: for every year, `tempus` assigns TRIDUUM to Holy Thursday, Good
Friday, Holy Saturday and Easter Sunday itself; QUADRAGESIMA to every day
of [Ash Wednesday, Holy Thursday), i.e. Easter offsets -46..-4; and
PASCHALE to every day of (Easter, Pentecost], i.e. offsets +1..+49. -/
theorem claim_C3_seasons (y : Nat) :
    tempus (feriaVInCenaDomini y) = Tempus.TRIDUUM ∧
    tempus (feriaVIInPassioneDomini y) = Tempus.TRIDUUM ∧
    tempus (sabbatumSanctum y) = Tempus.TRIDUUM ∧
    tempus (pascha y) = Tempus.TRIDUUM ∧
    (∀ k : Nat, 4 ≤ k → k ≤ 46 →
      tempus (addDies (pascha y) (-(k : Int))) = Tempus.QUADRAGESIMA) ∧
    (∀ k : Nat, 1 ≤ k → k ≤ 49 →
      tempus (addDies (pascha y) (k : Int)) = Tempus.PASCHALE) := by
  refine ⟨?_, ?_, ?_, ?_, ?_, ?_⟩
  · exact (tempus_easter_offset y (-3) (by omega) (by omega)).trans (by decide)
  · exact (tempus_easter_offset y (-2) (by omega) (by omega)).trans (by decide)
  · exact (tempus_easter_offset y (-1) (by omega) (by omega)).trans (by decide)
  · have h := tempus_easter_offset y 0 (by omega) (by omega)
    rw [addDies_pascha_zero y] at h
    exact h.trans (by decide)
  · intro k hk1 hk2
    exact (tempus_easter_offset y (-(k : Int)) (by omega) (by omega)).trans
      (if_pos (by omega))
  · intro k hk1 hk2
    exact (tempus_easter_offset y (k : Int) (by omega) (by omega)).trans
      ((if_neg (by omega)).trans (if_neg (by omega)))

/-- Witness for C3 at concrete inputs: a mid-Lent day and an Easter-season
day of 2025. -/
theorem claim_C3_seasons_witness :
    tempus (addDies (pascha 2025) (-(10 : Int))) = Tempus.QUADRAGESIMA ∧
    tempus (addDies (pascha 2025) (7 : Int)) = Tempus.PASCHALE :=
  ⟨(claim_C3_seasons 2025).2.2.2.2.1 10 (by decide) (by decide),
   (claim_C3_seasons 2025).2.2.2.2.2 7 (by decide) (by decide)⟩

/-- C8: for every year, the First Sunday of Advent computed by walking back
from December 25 is a Sunday, lies 22..28 days before December 25 (i.e. is
exactly the fourth Sunday before Christmas), and when Christmas itself is a
Sunday the distance is exactly 28. -/
theorem claim_C8_advent (y : Nat) :
    getDay (dominicaIAdventus y) = 0 ∧
    22 ≤ toRD (nativitas y) - toRD (dominicaIAdventus y) ∧
    toRD (nativitas y) - toRD (dominicaIAdventus y) ≤ 28 ∧
    (getDay (nativitas y) = 0 →
      toRD (nativitas y) - toRD (dominicaIAdventus y) = 28) := by
  obtain ⟨a, hA, hA1, hA2, hA3⟩ := adventus_shape y
  have hNat := natale_shape y
  rw [hA, hNat]
  refine ⟨hA3, ?_, ?_, ?_⟩
  · simp only [toRD, toRDNat]
    omega
  · simp only [toRD, toRDNat]
    omega
  · intro hSun
    have hSun2 : (dbyNat y + (359 + leapN y)) % 7 = 0 := hSun
    simp only [toRD, toRDNat]
    omega

/-- Witness for C8 at 2022, a year in which Christmas falls on a Sunday. -/
theorem claim_C8_advent_witness :
    getDay (nativitas 2022) = 0 ∧
    toRD (nativitas 2022) - toRD (dominicaIAdventus 2022) = 28 :=
  ⟨by decide, (claim_C8_advent 2022).2.2.2 (by decide)⟩

/-- C7: building the liturgical day never fails (the builder is a total
function into `DiesLiturgicus`) and the primary celebration is always the
head of the sorted candidate list or, when no Temporale or Sanctorale
candidate matched, the synthesized seasonal/ferial candidate
(`allCelebrations[0] || getFerial(date)`), for every possible behaviour of
the two catalog lookups. -/
theorem claim_C7_nonnull (tem san : JSDate → Option DiesSpecialis)
    (d : JSDate) :
    (getDiesLiturgicus tem san d).praecedentia =
      ((findCelebrations tem san d).headD (getFerial d)).praecedentia ∧
    (getDiesLiturgicus tem san d).id =
      ((findCelebrations tem san d).headD (getFerial d)).id ∧
    (findCelebrations tem san d = [] →
      (getDiesLiturgicus tem san d).praecedentia = (getFerial d).praecedentia ∧
      (getDiesLiturgicus tem san d).gradus = (getFerial d).gradus ∧
      (getDiesLiturgicus tem san d).id = (getFerial d).id) := by
  have e1 : (getDiesLiturgicus tem san d).praecedentia =
      ((findCelebrations tem san d).headD (getFerial d)).praecedentia := rfl
  have e2 : (getDiesLiturgicus tem san d).id =
      ((findCelebrations tem san d).headD (getFerial d)).id := rfl
  have e3 : (getDiesLiturgicus tem san d).gradus =
      ((findCelebrations tem san d).headD (getFerial d)).gradus := rfl
  refine ⟨e1, e2, fun h => ?_⟩
  have hh : (findCelebrations tem san d).headD (getFerial d) = getFerial d := by
    rw [h]
    rfl
  exact ⟨by rw [e1, hh], by rw [e3, hh], by rw [e2, hh]⟩

/-- Witness for C7: with catalog lookups that return no candidate, the
resolved day on an ordinary summer date is the synthesized ferial. -/
theorem claim_C7_nonnull_witness :
    (getDiesLiturgicus (fun _ => none) (fun _ => none)
        (mkDate 2025 6 15)).id = (getFerial (mkDate 2025 6 15)).id :=
  ((claim_C7_nonnull (fun _ => none) (fun _ => none)
    (mkDate 2025 6 15)).2.2 rfl).2.2

/-- C10: for every behaviour of the catalog lookups and every date,
`findCelebrations` returns at most two entries (at most one Temporale plus
at most one Sanctorale, by the `Option` shape of the lookups), sorted in
ascending order of `PraecedentiaValue`; in particular its head is a
minimum-precedence-value element. -/
theorem claim_C10_sorted (tem san : JSDate → Option DiesSpecialis)
    (d : JSDate) :
    (findCelebrations tem san d).length ≤ 2 ∧
    (findCelebrations tem san d).Pairwise
      (fun a b =>
        PraecedentiaValue a.praecedentia ≤ PraecedentiaValue b.praecedentia) ∧
    (∀ a b, findCelebrations tem san d = [a, b] →
      PraecedentiaValue a.praecedentia ≤ PraecedentiaValue b.praecedentia) := by
  unfold findCelebrations
  rcases tem d with _ | t <;> rcases san d with _ | s <;> dsimp only
  · exact ⟨by simp, by simp, by simp⟩
  · exact ⟨by simp, by simp, by simp⟩
  · exact ⟨by simp, by simp, by simp⟩
  · split
    next hc =>
      refine ⟨by simp, ?_, ?_⟩
      · simp only [List.pairwise_cons, List.mem_singleton, forall_eq,
          List.Pairwise.nil, and_true]
        constructor
        · omega
        · simp
      · intro a b hab
        simp only [List.cons.injEq, and_true] at hab
        obtain ⟨ha, hb⟩ := hab
        subst ha
        subst hb
        omega
    next hc =>
      refine ⟨by simp, ?_, ?_⟩
      · simp only [List.pairwise_cons, List.mem_singleton, forall_eq,
          List.Pairwise.nil, and_true]
        constructor
        · omega
        · simp
      · intro a b hab
        simp only [List.cons.injEq, and_true] at hab
        obtain ⟨ha, hb⟩ := hab
        subst ha
        subst hb
        omega

/-- Witness for C10: on 2035-03-19 the modelled catalogs yield the two
candidates Holy-Week-Monday and St. Joseph in ascending precedence order. -/
theorem claim_C10_sorted_witness :
    PraecedentiaValue holyMondayT.praecedentia ≤
      PraecedentiaValue iosephM.praecedentia :=
  (claim_C10_sorted findTemporaleCelebrationM findSanctoraleCelebrationM
    (mkDate 2035 2 19)).2.2 holyMondayT iosephM (by decide)

theorem idemDies_self (d : JSDate) : idemDies d d = true := by
  unfold idemDies
  simp

theorem sanctoraleM_cases (d : JSDate) (s : DiesSpecialis)
    (h : findSanctoraleCelebrationM d = some s) :
    s = patriciusM ∨ s = iosephM ∨ s = annuntiatioM ∨ s = marcusM ∨
      s = immaculataM := by
  unfold findSanctoraleCelebrationM at h
  dsimp only at h
  repeat' split at h
  all_goals cases h
  all_goals simp

theorem sanctoraleM_value (d : JSDate) (s : DiesSpecialis)
    (h : findSanctoraleCelebrationM d = some s) :
    300 ≤ PraecedentiaValue s.praecedentia := by
  rcases sanctoraleM_cases d s h with rfl | rfl | rfl | rfl | rfl <;> decide

theorem canCelebrate_privileged_false (c : DiesSpecialis) (date : JSDate)
    (hPV : 204 < PraecedentiaValue c.praecedentia)
    (hmem : ([feriaIVCinerum (getFullYear date),
        dominicaInPalmis (getFullYear date),
        feriaVInCenaDomini (getFullYear date),
        feriaVIInPassioneDomini (getFullYear date),
        sabbatumSanctum (getFullYear date),
        pascha (getFullYear date)].any (fun x => idemDies x date)) = true) :
    canCelebrate c date = false := by
  unfold canCelebrate
  dsimp only
  split
  · rfl
  · simp only [hmem, eq_self_iff_true, if_true, decide_eq_false_iff_not]
    omega

theorem getDies_praec (tem san : JSDate → Option DiesSpecialis) (d : JSDate) :
    (getDiesLiturgicus tem san d).praecedentia =
      ((findCelebrations tem san d).headD (getFerial d)).praecedentia := rfl

theorem getDies_comm (tem san : JSDate → Option DiesSpecialis) (d : JSDate) :
    (getDiesLiturgicus tem san d).commemoratio =
      (if (((findCelebrations tem san d).drop 1).filter
            (fun c => canCelebrate c d &&
              decide (PraecedentiaValue c.praecedentia < 1200))).length > 0
      then some ((((findCelebrations tem san d).drop 1).filter
            (fun c => canCelebrate c d &&
              decide (PraecedentiaValue c.praecedentia < 1200))).map
          (fun c => buildLiturgicalDay c d))
      else none) := rfl

theorem getDies_alt (tem san : JSDate → Option DiesSpecialis) (d : JSDate) :
    (getDiesLiturgicus tem san d).alternativae =
      (if ((findCelebrations tem san d).filter
            (fun c => decide (c.gradus = Gradus.MEMORIA_AD_LIBITUM) &&
              canCelebrate c d)).length > 0
      then some (((findCelebrations tem san d).filter
            (fun c => decide (c.gradus = Gradus.MEMORIA_AD_LIBITUM) &&
              canCelebrate c d)).map (fun c => buildLiturgicalDay c d))
      else none) := rfl

theorem temporaleM_at (y n : Nat) (o : Int)
    (hoff : toRD ⟨y, n⟩ - toRD (pascha y) = o) :
    findTemporaleCelebrationM ⟨y, n⟩ =
      (if o = -46 then some ashWednesdayT
       else if o = -7 then some palmSundayT
       else if o = -6 then some holyMondayT
       else if o = -5 then some holyTuesdayT
       else if o = -4 then some holyWednesdayT
       else if o = -3 then some holyThursdayT
       else if o = -2 then some goodFridayT
       else if o = -1 then some holySaturdayT
       else if o = 0 then some easterT
       else if 1 ≤ o ∧ o ≤ 6 then some (octaveT o)
       else if o = 7 then some divineMercyT
       else if o = 49 then some pentecostT
       else none) := by
  unfold findTemporaleCelebrationM
  dsimp only [getFullYear]
  rw [hoff]

theorem resolveM_privileged_core (y n : Nat) (t : DiesSpecialis)
    (hT : findTemporaleCelebrationM ⟨y, n⟩ = some t)
    (hTv : PraecedentiaValue t.praecedentia ≤ 204)
    (hTg : t.gradus = Gradus.SOLLEMNITAS)
    (hmem : ([feriaIVCinerum y, dominicaInPalmis y, feriaVInCenaDomini y,
        feriaVIInPassioneDomini y, sabbatumSanctum y,
        pascha y].any (fun x => idemDies x ⟨y, n⟩)) = true) :
    PraecedentiaValue (getDiesLiturgicusM ⟨y, n⟩).praecedentia ≤ 204 ∧
    (getDiesLiturgicusM ⟨y, n⟩).commemoratio = none ∧
    (getDiesLiturgicusM ⟨y, n⟩).alternativae = none := by
  unfold getDiesLiturgicusM
  cases hS : findSanctoraleCelebrationM ⟨y, n⟩ with
  | none =>
    have hList : findCelebrations findTemporaleCelebrationM
        findSanctoraleCelebrationM ⟨y, n⟩ = [t] := by
      unfold findCelebrations
      rw [hT, hS]
    refine ⟨?_, ?_, ?_⟩
    · rw [getDies_praec, hList]
      exact hTv
    · rw [getDies_comm, hList]
      simp
    · rw [getDies_alt, hList]
      simp [hTg]
  | some s =>
    have hSv := sanctoraleM_value ⟨y, n⟩ s hS
    have hCan : canCelebrate s ⟨y, n⟩ = false :=
      canCelebrate_privileged_false s ⟨y, n⟩ (by omega) hmem
    have hList : findCelebrations findTemporaleCelebrationM
        findSanctoraleCelebrationM ⟨y, n⟩ = [t, s] := by
      unfold findCelebrations
      rw [hT, hS]
      dsimp only
      rw [if_neg (by omega)]
    refine ⟨?_, ?_, ?_⟩
    · rw [getDies_praec, hList]
      exact hTv
    · rw [getDies_comm, hList]
      simp [hCan]
    · rw [getDies_alt, hList]
      simp [hCan, hTg]

/-- C4: the claim as stated is false: on 2035-03-19 (Monday of Holy Week)
the calendar layer does not suppress St. Joseph -- it keeps him as a
commemoration of precedence value 300 (tier 3), so a candidate of tier
greater than 2 appears in the resolved output.  (2035-03-19 is also not one
of the six most privileged days.)  This closed theorem exhibits the tier-3
candidate in the output of `getDiesLiturgicusM`. -/
theorem claim_C4_counterexample :
    ((getDiesLiturgicusM (mkDate 2035 2 19)).commemoratio.map
        (List.map DiesLiturgicusBase.praecedentia)) =
      some [Praecedentia.SOLLEMNITAS_GENERALIS_3] ∧
    ((getDiesLiturgicusM (mkDate 2035 2 19)).commemoratio.map
        (List.map DiesLiturgicusBase.id)) = some ["joseph_spouse_of_mary"] ∧
    204 < PraecedentiaValue Praecedentia.SOLLEMNITAS_GENERALIS_3 := by
  decide

/-- C4 (amended): on each of the six most privileged days the resolved day
contains no candidate of tier greater than 2: the primary has precedence
value at most 204 and both the commemoration and alternative lists are
empty.  On 2035-03-19 the primary is Holy-Week-Monday, but St. Joseph is
retained as a commemoration in the calendar layer; he is fully suppressed
only in the fragment-path layer, whose primary is the Holy-Week-Monday
temporale path and whose fallback is the plain seasonal path. -/
theorem claim_C4_amended :
    (∀ (y : Nat) (d : JSDate),
      (d = feriaIVCinerum y ∨ d = dominicaInPalmis y ∨
        d = feriaVInCenaDomini y ∨ d = feriaVIInPassioneDomini y ∨
        d = sabbatumSanctum y ∨ d = pascha y) →
      PraecedentiaValue (getDiesLiturgicusM d).praecedentia ≤ 204 ∧
      (getDiesLiturgicusM d).commemoratio = none ∧
      (getDiesLiturgicusM d).alternativae = none) ∧
    (getDiesLiturgicusM (mkDate 2035 2 19)).id = "holy_week_monday" ∧
    (getDiesLiturgicusM (mkDate 2035 2 19)).praecedentia =
      Praecedentia.FERIA_HEBDOMADAE_SANCTAE_2 ∧
    (getFragmentNamesM (mkDate 2035 2 19) "LAU").primary = "QUA6F2/LAU" ∧
    (getFragmentNamesM (mkDate 2035 2 19) "LAU").fallback =
      some "QUA/06/2LUN/LAU" := by
  refine ⟨?_, by decide, by decide, by decide, by decide⟩
  intro y d hd
  have hPy := (pascha_shape y).1
  rcases hd with rfl | rfl | rfl | rfl | rfl | rfl
  · obtain ⟨n, hEq, hn, hn1, hn2⟩ := addDies_pascha y (-46) (by norm_num) (by norm_num)
    have hc : feriaIVCinerum y = ⟨y, n⟩ := hEq
    rw [hc]
    have hoff : toRD ⟨y, n⟩ - toRD (pascha y) = -46 := by
      simp only [toRD, toRDNat, hPy]
      omega
    have hT : findTemporaleCelebrationM ⟨y, n⟩ = some ashWednesdayT := by
      rw [temporaleM_at y n (-46) hoff]
      norm_num
    exact resolveM_privileged_core y n ashWednesdayT hT (by decide) (by decide)
      (by simp [hc, idemDies_self])
  · obtain ⟨n, hEq, hn, hn1, hn2⟩ := addDies_pascha y (-7) (by norm_num) (by norm_num)
    have hc : dominicaInPalmis y = ⟨y, n⟩ := hEq
    rw [hc]
    have hoff : toRD ⟨y, n⟩ - toRD (pascha y) = -7 := by
      simp only [toRD, toRDNat, hPy]
      omega
    have hT : findTemporaleCelebrationM ⟨y, n⟩ = some palmSundayT := by
      rw [temporaleM_at y n (-7) hoff]
      norm_num
    exact resolveM_privileged_core y n palmSundayT hT (by decide) (by decide)
      (by simp [hc, idemDies_self])
  · obtain ⟨n, hEq, hn, hn1, hn2⟩ := addDies_pascha y (-3) (by norm_num) (by norm_num)
    have hc : feriaVInCenaDomini y = ⟨y, n⟩ := hEq
    rw [hc]
    have hoff : toRD ⟨y, n⟩ - toRD (pascha y) = -3 := by
      simp only [toRD, toRDNat, hPy]
      omega
    have hT : findTemporaleCelebrationM ⟨y, n⟩ = some holyThursdayT := by
      rw [temporaleM_at y n (-3) hoff]
      norm_num
    exact resolveM_privileged_core y n holyThursdayT hT (by decide) (by decide)
      (by simp [hc, idemDies_self])
  · obtain ⟨n, hEq, hn, hn1, hn2⟩ := addDies_pascha y (-2) (by norm_num) (by norm_num)
    have hc : feriaVIInPassioneDomini y = ⟨y, n⟩ := hEq
    rw [hc]
    have hoff : toRD ⟨y, n⟩ - toRD (pascha y) = -2 := by
      simp only [toRD, toRDNat, hPy]
      omega
    have hT : findTemporaleCelebrationM ⟨y, n⟩ = some goodFridayT := by
      rw [temporaleM_at y n (-2) hoff]
      norm_num
    exact resolveM_privileged_core y n goodFridayT hT (by decide) (by decide)
      (by simp [hc, idemDies_self])
  · obtain ⟨n, hEq, hn, hn1, hn2⟩ := addDies_pascha y (-1) (by norm_num) (by norm_num)
    have hc : sabbatumSanctum y = ⟨y, n⟩ := hEq
    rw [hc]
    have hoff : toRD ⟨y, n⟩ - toRD (pascha y) = -1 := by
      simp only [toRD, toRDNat, hPy]
      omega
    have hT : findTemporaleCelebrationM ⟨y, n⟩ = some holySaturdayT := by
      rw [temporaleM_at y n (-1) hoff]
      norm_num
    exact resolveM_privileged_core y n holySaturdayT hT (by decide) (by decide)
      (by simp [hc, idemDies_self])
  · obtain ⟨n, hEq, hn, hn1, hn2⟩ := addDies_pascha y 0 (by norm_num) (by norm_num)
    have hc : pascha y = ⟨y, n⟩ := (addDies_pascha_zero y).symm.trans hEq
    rw [hc]
    have hoff : toRD ⟨y, n⟩ - toRD (pascha y) = 0 := by
      simp only [toRD, toRDNat, hPy]
      omega
    have hT : findTemporaleCelebrationM ⟨y, n⟩ = some easterT := by
      rw [temporaleM_at y n 0 hoff]
      norm_num
    exact resolveM_privileged_core y n easterT hT (by decide) (by decide)
      (by simp [hc, idemDies_self])

/-- Witness for the amended C4 on a concrete privileged day: Easter Sunday
2025 resolves with precedence value at most 204 and no commemorations. -/
theorem claim_C4_amended_witness :
    PraecedentiaValue (getDiesLiturgicusM (pascha 2025)).praecedentia ≤ 204 ∧
    (getDiesLiturgicusM (pascha 2025)).commemoratio = none :=
  ⟨(claim_C4_amended.1 2025 (pascha 2025)
      (Or.inr (Or.inr (Or.inr (Or.inr (Or.inr rfl)))))).1,
   (claim_C4_amended.1 2025 (pascha 2025)
      (Or.inr (Or.inr (Or.inr (Or.inr (Or.inr rfl)))))).2.1⟩

/-- C5: the claim (and the comment inside `canCelebrate`) says an
optional-memorial candidate during Advent or Lent can never be primary and
is recorded at most as a commemoration.  The code contradicts this: the
primary is `allCelebrations[0] || getFerial(date)` with no `canCelebrate`
filter, and the commemoration filter requires `canCelebrate` to pass, so on
2025-03-17 (a Monday of Lent) the optional memorial of St. Patrick is the
*primary* of the resolved day and appears in no commemoration or
alternative list, even though `canCelebrate` itself returns false for it. -/
theorem claim_C5_code_bug :
    tempus (mkDate 2025 2 17) = Tempus.QUADRAGESIMA ∧
    findCelebrationsM (mkDate 2025 2 17) = [patriciusM] ∧
    patriciusM.gradus = Gradus.MEMORIA_AD_LIBITUM ∧
    (getDiesLiturgicusM (mkDate 2025 2 17)).gradus =
      Gradus.MEMORIA_AD_LIBITUM ∧
    (getDiesLiturgicusM (mkDate 2025 2 17)).praecedentia =
      Praecedentia.MEMORIA_AD_LIBITUM_12 ∧
    (getDiesLiturgicusM (mkDate 2025 2 17)).id = "patrick" ∧
    (getDiesLiturgicusM (mkDate 2025 2 17)).commemoratio = none ∧
    (getDiesLiturgicusM (mkDate 2025 2 17)).alternativae = none ∧
    canCelebrate patriciusM (mkDate 2025 2 17) = false := by
  decide

/-- C6: the claim says every Sanctorale candidate whose date falls within
the Easter-offset window [-7, +7] is excluded and marked as transferred.
The code only marks two specific ids (`annunciation`, `joseph_spouse_of_mary`).
In 2038 Easter falls on April 25, the feast of St. Mark: the offset is 0,
inside the window, yet `getTransferDate` does not mark the candidate. -/
theorem claim_C6_counterexample :
    findSanctoraleCelebrationM (mkDate 2038 3 25) = some marcusM ∧
    toRD (mkDate 2038 3 25) - toRD (pascha 2038) = 0 ∧
    getTransferDate marcusM (mkDate 2038 3 25) = none := by
  decide

/-- C6 (amended): only the Annunciation (window [-7, +7], transferred to
Easter + 8) and St. Joseph (window [-7, 0], transferred to Easter - 8) are
marked as transferred; for every other sanctorale candidate
`getTransferDate` returns none on every date. -/
theorem claim_C6_amended :
    (∀ (s : DiesSpecialis) (d : JSDate), s.id ≠ "annunciation" →
      s.id ≠ "joseph_spouse_of_mary" → getTransferDate s d = none) ∧
    (∀ d : JSDate, getTransferDate annuntiatioM d =
      (if -7 ≤ toRD d - toRD (pascha (getFullYear d)) ∧
          toRD d - toRD (pascha (getFullYear d)) ≤ 7
        then some (addDies (pascha (getFullYear d)) 8) else none)) ∧
    (∀ d : JSDate, getTransferDate iosephM d =
      (if -7 ≤ toRD d - toRD (pascha (getFullYear d)) ∧
          toRD d - toRD (pascha (getFullYear d)) ≤ 0
        then some (addDies (pascha (getFullYear d)) (-8)) else none)) := by
  refine ⟨?_, ?_, ?_⟩
  · intro s d h1 h2
    unfold getTransferDate
    dsimp only
    rw [if_neg (fun hx => h1 hx.1), if_neg (fun hx => h2 hx.1)]
  · intro d
    unfold getTransferDate
    dsimp only
    by_cases hw : -7 ≤ toRD d - toRD (pascha (getFullYear d)) ∧
        toRD d - toRD (pascha (getFullYear d)) ≤ 7
    · rw [if_pos ⟨rfl, rfl, rfl, hw.1, hw.2⟩, if_pos hw]
    · rw [if_neg (fun hx => hw ⟨hx.2.2.2.1, hx.2.2.2.2⟩), if_neg hw,
        if_neg (fun hx => absurd hx.1 (by decide))]
  · intro d
    unfold getTransferDate
    dsimp only
    rw [if_neg (fun hx => absurd hx.1 (by decide))]
    by_cases hw : -7 ≤ toRD d - toRD (pascha (getFullYear d)) ∧
        toRD d - toRD (pascha (getFullYear d)) ≤ 0
    · rw [if_pos ⟨rfl, rfl, rfl, hw.1, hw.2⟩, if_pos hw]
    · rw [if_neg (fun hx => hw ⟨hx.2.2.2.1, hx.2.2.2.2⟩), if_neg hw]

/-- Witness for the amended C6: the Immaculate Conception entry is never
marked as transferred. -/
theorem claim_C6_amended_witness :
    getTransferDate immaculataM (mkDate 2025 11 8) = none :=
  claim_C6_amended.1 immaculataM (mkDate 2025 11 8) (by decide) (by decide)

/-- C9: the claim says an invalid calendar date such as February 30 is
signaled as an explicit caller error and never silently normalized.  The
library performs no validation: the `Date` constructor silently normalizes
Feb 30, 2025 to Mar 2, 2025 and the resolution runs on the normalized date
with no error channel at all. -/
theorem claim_C9_counterexample :
    mkDate 2025 1 30 = mkDate 2025 2 2 ∧
    getDiesLiturgicusM (mkDate 2025 1 30) =
      getDiesLiturgicusM (mkDate 2025 2 2) := by
  exact ⟨by decide, by decide⟩

/-- C9 (amended): in every non-leap year, the input February 30 is silently
normalized to March 2 by the `Date` constructor, and the liturgical day
built for it is exactly the one of March 2; no error is signaled (the
builder is total). -/
theorem claim_C9_amended (y : Nat) (h : isLeap y = false) :
    mkDate y 1 30 = mkDate y 2 2 ∧
    getDiesLiturgicusM (mkDate y 1 30) = getDiesLiturgicusM (mkDate y 2 2) := by
  have h1 : mkDate y 1 30 = mkDate y 2 2 := by
    unfold mkDate daysBeforeMonth cumDays daysInYear
    simp [h]
  exact ⟨h1, by rw [h1]⟩

/-- Witness for the amended C9 at 2025. -/
theorem claim_C9_amended_witness : mkDate 2025 1 30 = mkDate 2025 2 2 :=
  (claim_C9_amended 2025 (by decide)).1
